import Mathlib

/-!
Verification development for the controller-enablement and admission-validation
core of a Kubernetes ingress controller.

The Go sources are embedded shallowly:

* `ControllerDef.MaybeSetupWithManager` (railgun/manager/manager.go) — the
  three-state enablement switch.  Invocations of the wrapped controller's
  `SetupWithManager` and of the `AutoHandler` predicate are instrumented by
  returning counts alongside the result, so that "invokes exactly once" is a
  provable statement.
* `getOrCreateConfigSecret` (controllers/configuration) — get-or-create over
  the config secret, with the Kubernetes client modelled as a record of
  `get`/`create` functions; a Go nil `Data` map is modelled as `none`.
* `KongHTTPValidator.ValidateConsumer` / `ValidatePlugin` /
  `ValidateCredential` (admission package) — the remote Kong Admin API client
  and the two kongstate conversion helpers (which live outside this repository
  slice) are modelled as a record of functions `AdmissionEnv`; each validator
  returns its `(valid, reason, error)` triple together with the number of
  remote Admin API round-trips it performed.

Go `error` values are modelled as `Option String` (the string being the text
`err.Error()` would return); a Go function returning `(T, error)` is modelled
as `Except String T` where only one of the two is meaningful.
-/

/-- EnablementStatus is the three-valued controller enablement policy
(`util.EnablementStatus`; the concrete type lives outside this repository
slice and is modelled from the spec as the enum {Enabled, Disabled, Auto}). -/
inductive EnablementStatus where
  | enabled
  | disabled
  | auto
deriving DecidableEq, Repr

/-- ControllerDef is a specification of a Controller that can be conditionally
registered with Manager (manager.go).  `Controller` is the wrapped
controller's `SetupWithManager` operation (it returns `none` on success and
`some msg` on error); `Name` models the reflect-derived display name returned
by the Go `Name()` method; `IsEnabled` is the dereferenced value of the
`*util.EnablementStatus` pointer at resolution time. -/
structure ControllerDef (M : Type) where
  IsEnabled : EnablementStatus
  AutoHandler : Option (M → Bool)
  Controller : M → Option String
  Name : String

/-- MaybeSetupWithManager runs SetupWithManager on the controller if its
EnablementStatus is either "enabled", or "auto" and AutoHandler says that it
should be enabled (manager.go lines 161-179).  The result is the returned
error (`none` = Go `nil`) paired with the number of `SetupWithManager`
invocations and the number of `AutoHandler` invocations.  The Go `fallthrough`
from the Auto-true branch into the `default` (enabled) branch is rendered as
both branches producing the same `Controller mgr` call. -/
def ControllerDef.MaybeSetupWithManager {M : Type} (c : ControllerDef M) (mgr : M) :
    Option String × Nat × Nat :=
  match c.IsEnabled with
  | .disabled => (none, 0, 0)
  | .auto =>
    match c.AutoHandler with
    | none =>
      -- source: fmt.Errorf("auto enablement not supported for controller %q", c.Name())
      (some ("auto enablement not supported for controller " ++ c.Name), 0, 0)
    | some handler =>
      if handler mgr then (c.Controller mgr, 1, 1) else (none, 0, 1)
  | .enabled => (c.Controller mgr, 1, 0)

/-- Secret models `corev1.Secret` restricted to what this subsystem touches:
name, namespace and the `Data` map.  `Data = none` models a Go nil map,
`Data = some kvs` a non-nil map given as an association list with unique
keys (lookup is first-match, as in a Go map). -/
structure Secret where
  Name : String
  Namespace : String
  Data : Option (List (String × String))
deriving DecidableEq, Repr

/-- NamespacedName models `types.NamespacedName`. -/
structure NamespacedName where
  Name : String
  Namespace : String
deriving DecidableEq, Repr

/-- K8sError models a Kubernetes API error as seen by this code: whether
`errors.IsNotFound` holds of it, plus its message text. -/
structure K8sError where
  IsNotFound : Bool
  Msg : String
deriving DecidableEq, Repr

/-- ConfigClient models the controller-runtime `client.Client` operations used
by `getOrCreateConfigSecret`: a point read returning either an error or the
stored secret, and a create returning an optional error. -/
structure ConfigClient where
  get : NamespacedName → Except K8sError Secret
  create : Secret → Option K8sError

/-- getOrCreateConfigSecret finds or creates the secret which houses the
combined configurations of the cluster (controllers/configuration).  On a
not-found read it constructs the empty secret at the target name/namespace,
creates it, and returns it with `created = true`; on any other read failure it
returns that failure untouched; on a successful read it normalizes a nil
`Data` map to an empty one and returns the secret with `created = false`. -/
def getOrCreateConfigSecret (c : ConfigClient) (targetNsn : NamespacedName) :
    Except K8sError (Secret × Bool) :=
  match c.get targetNsn with
  | .error err =>
    if err.IsNotFound then
      -- secret := new(corev1.Secret); SetName; SetNamespace  (Data stays nil)
      let secret : Secret :=
        { Name := targetNsn.Name, Namespace := targetNsn.Namespace, Data := none }
      match c.create secret with
      | some cerr => .error cerr
      | none => .ok (secret, true)
    else
      .error err
  | .ok secret =>
    if secret.Data = none then .ok ({ secret with Data := some [] }, false)
    else .ok (secret, false)

/-- SecretValueFromSource models `configurationv1.SecretValueFromSource`, the
reference inside `ConfigFrom`; the Go code compares it against the zero struct
to decide whether an indirect configuration is set. -/
structure SecretValueFromSource where
  Secret : String
  Key : String
deriving DecidableEq, Repr

/-- KongConsumer models `configurationv1.KongConsumer` restricted to the field
the validator reads. -/
structure KongConsumer where
  Username : String
deriving DecidableEq, Repr

/-- Configuration models `kong.Configuration`, the parsed plugin
configuration map, as an association list with unique keys. -/
abbrev Configuration := List (String × String)

/-- KongPlugin models `configurationv1.KongPlugin` restricted to the fields
`ValidatePlugin` reads.  `Config` is the raw (unparsed) configuration bytes;
`ConfigFrom` is the `ConfigFrom.SecretValue` reference. -/
structure KongPlugin where
  PluginName : String
  Config : String
  ConfigFrom : SecretValueFromSource
  Namespace : String
  RunOn : String
  Protocols : List String
deriving DecidableEq, Repr

/-- Plugin models `kong.Plugin`, the candidate descriptor assembled for the
schema-validation submission; optional fields are `none` when left unset. -/
structure Plugin where
  Name : String
  Config : Configuration
  RunOn : Option String
  Protocols : Option (List String)
deriving DecidableEq, Repr

/-- KongRequest models the Admin API request built by
`validator.Client.NewRequest("POST", "/schemas/plugins/validate", nil, &plugin)`. -/
structure KongRequest where
  Method : String
  Path : String
  Body : Plugin
deriving DecidableEq, Repr

/-- KongResponse models the Admin API response as seen by this code: only its
HTTP status code is inspected. -/
structure KongResponse where
  StatusCode : Nat
deriving DecidableEq, Repr

/-- ConsumerLookupError models an error from `validator.Client.Consumers.Get`:
whether `kong.IsNotFoundErr` holds of it, plus its message text. -/
structure ConsumerLookupError where
  IsNotFound : Bool
  Text : String
deriving DecidableEq, Repr

/-- AdmissionEnv models the collaborators injected into `KongHTTPValidator`:
the remote Kong Admin API client (`consumersGet`, `newRequestErr`,
`doRequest`) and the kongstate conversion helpers backed by the local store
snapshot.  `consumersGet` returns an error, or a possibly-nil pointer
(`Option Unit`).  `rawConfigToConfiguration` and `secretToConfiguration`
model `kongstate.RawConfigToConfiguration` / `kongstate.SecretToConfiguration`,
which live outside this repository slice; per the spec they parse the raw
config, resp. resolve the referenced secret through the local state snapshot,
either failing or producing a `Configuration`.  `newRequestErr` gives the
error, if any, of building the request (the request itself is determined by
its arguments); `doRequest` performs the round-trip and is the only remote
call on the plugin path. -/
structure AdmissionEnv where
  consumersGet : String → Except ConsumerLookupError (Option Unit)
  rawConfigToConfiguration : String → Except String Configuration
  secretToConfiguration : SecretValueFromSource → String → Except String Configuration
  newRequestErr : KongRequest → Option String
  doRequest : KongRequest → Except String KongResponse

/-- ValidateConsumer checks if consumer has a Username and a consumer with the
same username does not exist in Kong (admission package).  Result: the
`(valid, reason, error)` triple paired with the number of remote lookups
performed.  The Go code also logs the lookup failure before wrapping it; the
log write has no modelled effect. -/
def ValidateConsumer (env : AdmissionEnv) (consumer : KongConsumer) :
    (Bool × String × Option String) × Nat :=
  if consumer.Username = "" then
    ((false, "username cannot be empty", none), 0)
  else
    match env.consumersGet consumer.Username with
    | .error err =>
      if err.IsNotFound then ((true, "", none), 1)
      else ((false, "", some ("fetching consumer from Kong: " ++ err.Text)), 1)
    | .ok c =>
      match c with
      | some _ => ((false, "consumer already exists", none), 1)
      | none => ((true, "", none), 1)

/-- assemblePlugin builds the `kong.Plugin` descriptor exactly as
`ValidatePlugin` does: `RunOn` is set only when non-empty, `Protocols` only
when non-empty; `config` is whichever configuration the control flow chose. -/
def assemblePlugin (p : KongPlugin) (config : Configuration) : Plugin :=
  { Name := p.PluginName
    Config := config
    RunOn := if p.RunOn = "" then none else some p.RunOn
    Protocols := if p.Protocols.length > 0 then some p.Protocols else none }

/-- submitPluginSchema is the tail of `ValidatePlugin`: build the request for
POST /schemas/plugins/validate and perform it.  On a request-building error
the error is propagated (`(false, "", some e)`, no round-trip); on a
transport error the error text becomes the reason with a nil error; on any
completed response the result is valid (the source checks `resp.StatusCode ==
201` and then re-checks the same already-nil `err`, so both the 201 branch and
the final return produce `(true, "", nil)`). -/
def submitPluginSchema (env : AdmissionEnv) (plugin : Plugin) :
    (Bool × String × Option String) × Nat :=
  let req : KongRequest :=
    { Method := "POST", Path := "/schemas/plugins/validate", Body := plugin }
  match env.newRequestErr req with
  | some e => ((false, "", some e), 0)
  | none =>
    match env.doRequest req with
    | .error e => ((false, e, none), 1)
    | .ok resp =>
      if resp.StatusCode = 201 then ((true, "", none), 1)
      else ((true, "", none), 1)

/-- ValidatePlugin checks if k8sPlugin is valid by a dry-run submission to
Kong's schema validation endpoint (admission package).  Result: the
`(valid, reason, error)` triple paired with the number of remote Admin API
round-trips performed. -/
def ValidatePlugin (env : AdmissionEnv) (k8sPlugin : KongPlugin) :
    (Bool × String × Option String) × Nat :=
  if k8sPlugin.PluginName = "" then
    ((false, "plugin name cannot be empty", none), 0)
  else
    match env.rawConfigToConfiguration k8sPlugin.Config with
    | .error e => ((false, "could not parse plugin configuration", some e), 0)
    | .ok parsed =>
      if k8sPlugin.ConfigFrom ≠ ({ Secret := "", Key := "" } : SecretValueFromSource) then
        if parsed.length > 0 then
          ((false, "plugin cannot use both Config and ConfigFrom", none), 0)
        else
          match env.secretToConfiguration k8sPlugin.ConfigFrom k8sPlugin.Namespace with
          | .error e => ((false, "could not load secret plugin configuration", some e), 0)
          | .ok config => submitPluginSchema env (assemblePlugin k8sPlugin config)
      else
        submitPluginSchema env (assemblePlugin k8sPlugin parsed)

def keyAuthFields : List String := ["key"]
def basicAuthFields : List String := ["username", "password"]
def hmacAuthFields : List String := ["username", "secret"]
def jwtAuthFields : List String := ["algorithm", "rsa_public_key", "key", "secret"]
def mtlsAuthFields : List String := ["subject_name"]

/-- credTypeToFields is the Field-Requirement Matrix: the map from
credential-type identifier to the ordered list of required fields (admission
package), rendered as an association list with the map literal's entries. -/
def credTypeToFields : List (String × List String) :=
  [("key-auth", keyAuthFields),
   ("keyauth_credential", keyAuthFields),
   ("basic-auth", basicAuthFields),
   ("basicauth_credential", basicAuthFields),
   ("hmac-auth", hmacAuthFields),
   ("hmacauth_credential", hmacAuthFields),
   ("jwt", jwtAuthFields),
   ("jwt_secret", jwtAuthFields),
   ("oauth2", ["name", "client_id", "client_secret", "redirect_uris"]),
   ("acl", ["group"]),
   ("mtls-auth", mtlsAuthFields)]

/-- secretLookup models indexing the secret's `Data` map: indexing a nil map
behaves like indexing an empty one. -/
def secretLookup (s : Secret) (field : String) : Option String :=
  (s.Data.getD []).lookup field

/-- ValidateCredential checks if the secret contains a credential meant to be
installed in Kong and, if so, verifies that all required fields are present
(admission package).  It reads none of the injected collaborators and makes
no remote call, hence the constant round-trip count 0.  The Go loop appending
each absent field to `missingFields` in matrix order is rendered as a
filter. -/
def ValidateCredential (_env : AdmissionEnv) (secret : Secret) :
    (Bool × String × Option String) × Nat :=
  match secretLookup secret "kongCredType" with
  | none =>
    -- does not look like a credential resource
    ((true, "", none), 0)
  | some credType =>
    match credTypeToFields.lookup credType with
    | none => ((false, "invalid credential type: " ++ credType, none), 0)
    | some fields =>
      let missingFields := fields.filter (fun field => (secretLookup secret field).isNone)
      if missingFields.length ≠ 0 then
        ((false, "missing required field(s): " ++ String.intercalate ", " missingFields,
          none), 0)
      else
        ((true, "", none), 0)

/-- A controller registration in Auto mode whose predicate accepts, wrapping a
controller whose SetupWithManager succeeds. -/
def autoTrueDef : ControllerDef Unit :=
  { IsEnabled := .auto
    AutoHandler := some (fun _ => true)
    Controller := fun _ => none
    Name := "AutoTrueReconciler" }

/-- The well-known config secret name used by the examples. -/
def configNsn : NamespacedName := { Name := "kong-config", Namespace := "default" }

/-- A client for which the config secret does not exist yet and creation
succeeds. -/
def clientMissingSecret : ConfigClient :=
  { get := fun _ => .error { IsNotFound := true, Msg := "secrets not found" }
    create := fun _ => none }

/-- The secret `getOrCreateConfigSecret` constructs on the not-found path:
name and namespace set, `Data` still the Go nil map. -/
def emptyCreatedSecret : Secret :=
  { Name := "kong-config", Namespace := "default", Data := none }

/-- A client that already stores the config secret, its persisted value having
a nil Data map. -/
def clientExistingSecret : ConfigClient :=
  { get := fun _ => .ok emptyCreatedSecret
    create := fun _ => none }

/-- baseEnv assembles concrete collaborators around a fixed remote round-trip
outcome: consumer lookups find a nil pointer, raw config parses to the empty
configuration, secret resolution succeeds with an empty configuration,
request building succeeds, and the schema-validation round-trip yields
`outcome`. -/
def baseEnv (outcome : Except String KongResponse) : AdmissionEnv :=
  { consumersGet := fun _ => .ok none
    rawConfigToConfiguration := fun _ => .ok []
    secretToConfiguration := fun _ _ => .ok []
    newRequestErr := fun _ => none
    doRequest := fun _ => outcome }

/-- envParsedConf parses every raw config to a non-empty configuration. -/
def envParsedConf : AdmissionEnv :=
  { baseEnv (.ok { StatusCode := 201 }) with
      rawConfigToConfiguration := fun _ => .ok [("minute", "20")] }

/-- envConsumerNotFound reports every consumer lookup as not-found. -/
def envConsumerNotFound : AdmissionEnv :=
  { baseEnv (.ok { StatusCode := 201 }) with
      consumersGet := fun _ => .error { IsNotFound := true, Text := "Not found" } }

/-- pluginSubmit reaches the schema-validation submission: a named plugin with
empty raw config and no ConfigFrom reference. -/
def pluginSubmit : KongPlugin :=
  { PluginName := "rate-limiting"
    Config := ""
    ConfigFrom := { Secret := "", Key := "" }
    Namespace := "default"
    RunOn := ""
    Protocols := [] }

/-- pluginBothNoName carries both a raw config and a ConfigFrom reference but
has an empty plugin name. -/
def pluginBothNoName : KongPlugin :=
  { PluginName := ""
    Config := "minute: 20"
    ConfigFrom := { Secret := "conf", Key := "cfg" }
    Namespace := "default"
    RunOn := ""
    Protocols := [] }

/-- pluginBoth carries both a raw config and a ConfigFrom reference. -/
def pluginBoth : KongPlugin :=
  { PluginName := "rate-limiting"
    Config := "minute: 20"
    ConfigFrom := { Secret := "conf", Key := "cfg" }
    Namespace := "default"
    RunOn := ""
    Protocols := [] }

/-- aliceConsumer is the consumer from the spec scenario. -/
def aliceConsumer : KongConsumer := { Username := "alice" }

/-- basicAuthUsernameOnly is a basic-auth credential secret carrying only the
username field. -/
def basicAuthUsernameOnly : Secret :=
  { Name := "cred", Namespace := "default",
    Data := some [("kongCredType", "basic-auth"), ("username", "alice")] }

/-- unknownCredType is a credential secret with an unrecognized type marker. -/
def unknownCredType : Secret :=
  { Name := "cred", Namespace := "default",
    Data := some [("kongCredType", "made-up-type")] }

/-- nonCredential is a secret without the kongCredType marker. -/
def nonCredential : Secret :=
  { Name := "plain", Namespace := "default", Data := some [("foo", "bar")] }

/-- credTypeKeys lists the credential-type identifiers declared in the
Field-Requirement Matrix, in declaration order. -/
def credTypeKeys : List String := credTypeToFields.map Prod.fst

/-- C1: For every ControllerDef, MaybeSetupWithManager resolves as follows: if
the referenced enablement status is Disabled it returns nil without invoking
the AutoHandler or the controller's SetupWithManager; if the status is Auto
and AutoHandler is nil it returns an error and never invokes
SetupWithManager; if the status is Auto and the AutoHandler returns false it
returns nil without invoking SetupWithManager; if the status is Auto and the
AutoHandler returns true, or the status is Enabled, it invokes
SetupWithManager exactly once and returns its result. -/
theorem C1_maybe_setup_with_manager {M : Type} (c : ControllerDef M) (mgr : M) :
    (c.IsEnabled = .disabled → c.MaybeSetupWithManager mgr = (none, 0, 0)) ∧
    (c.IsEnabled = .auto → c.AutoHandler = none →
      (∃ e, (c.MaybeSetupWithManager mgr).1 = some e) ∧
        (c.MaybeSetupWithManager mgr).2.1 = 0) ∧
    (∀ handler, c.IsEnabled = .auto → c.AutoHandler = some handler →
      handler mgr = false → c.MaybeSetupWithManager mgr = (none, 0, 1)) ∧
    (∀ handler, c.IsEnabled = .auto → c.AutoHandler = some handler →
      handler mgr = true →
      c.MaybeSetupWithManager mgr = (c.Controller mgr, 1, 1)) ∧
    (c.IsEnabled = .enabled →
      c.MaybeSetupWithManager mgr = (c.Controller mgr, 1, 0)) := by
  refine ⟨?_, ?_, ?_, ?_, ?_⟩
  · intro h
    simp [ControllerDef.MaybeSetupWithManager, h]
  · intro h1 h2
    simp [ControllerDef.MaybeSetupWithManager, h1, h2]
  · intro handler h1 h2 h3
    simp [ControllerDef.MaybeSetupWithManager, h1, h2, h3]
  · intro handler h1 h2 h3
    simp [ControllerDef.MaybeSetupWithManager, h1, h2, h3]
  · intro h
    simp [ControllerDef.MaybeSetupWithManager, h]

/-- C1 witness: on the Auto-with-accepting-predicate registration the
resolution installs exactly once and returns the install result. -/
theorem C1_witness : autoTrueDef.MaybeSetupWithManager () = (none, 1, 1) :=
  (C1_maybe_setup_with_manager autoTrueDef ()).2.2.2.1 (fun _ => true) rfl rfl rfl

/-- C2 counterexample: on a not-found read followed by a successful create,
`getOrCreateConfigSecret` returns with a nil error and `created = true`, yet
the returned secret's `Data` mapping is nil — the claimed non-nil guarantee
fails on the lazily-created path. -/
theorem C2_counterexample :
    getOrCreateConfigSecret clientMissingSecret configNsn =
        .ok (emptyCreatedSecret, true) ∧
      emptyCreatedSecret.Data = none :=
  ⟨rfl, rfl⟩

/-- C2 (amended): for every call of getOrCreateConfigSecret that returns with
a nil error and `created = false` (the record already existed), the returned
secret's content mapping (Data) is non-nil; on the lazily-created path
(`created = true`) the secret is returned before the normalization step and
its Data mapping is nil. -/
theorem C2_created_false_data_nonnil (c : ConfigClient) (nsn : NamespacedName)
    (s : Secret) (h : getOrCreateConfigSecret c nsn = .ok (s, false)) :
    s.Data ≠ none := by
  unfold getOrCreateConfigSecret at h
  split at h
  · -- read failed
    split at h
    · -- not-found: lazily create
      dsimp only at h
      split at h
      · exact absurd h (by simp)
      · simp at h
    · exact absurd h (by simp)
  · -- read succeeded
    split at h
    · simp only [Except.ok.injEq, Prod.mk.injEq] at h
      obtain ⟨h1, -⟩ := h
      rw [← h1]
      simp
    · next hd =>
      simp only [Except.ok.injEq, Prod.mk.injEq] at h
      obtain ⟨h1, -⟩ := h
      rw [← h1]
      exact hd

/-- C2 witness: reading the pre-existing record through
getOrCreateConfigSecret yields `created = false` and a normalized, non-nil
Data mapping. -/
theorem C2_witness :
    ({ Name := "kong-config", Namespace := "default",
        Data := some ([] : List (String × String)) } : Secret).Data ≠ none :=
  C2_created_false_data_nonnil clientExistingSecret configNsn
    { Name := "kong-config", Namespace := "default", Data := some [] } rfl

/-- Helper: when every remote round-trip completes with a response, a
submission that actually performed its round-trip reports valid with an empty
reason and a nil error, whatever the status code. -/
theorem submitPluginSchema_completed (env : AdmissionEnv) (plugin : Plugin)
    (hok : ∀ r, ∃ resp, env.doRequest r = .ok resp) :
    (submitPluginSchema env plugin).2 = 1 →
      (submitPluginSchema env plugin).1 = (true, "", none) := by
  unfold submitPluginSchema
  dsimp only
  split
  · intro h
    simp at h
  · obtain ⟨resp, hr⟩ :=
      hok { Method := "POST", Path := "/schemas/plugins/validate", Body := plugin }
    rw [hr]
    intro _
    by_cases h201 : resp.StatusCode = 201 <;> simp [h201]

/-- Helper: when every remote round-trip fails with transport error text `e`,
a submission that actually performed its round-trip reports invalid with `e`
as the reason and a nil error. -/
theorem submitPluginSchema_transport_error (env : AdmissionEnv) (plugin : Plugin)
    (e : String) (herr : ∀ r, env.doRequest r = .error e) :
    (submitPluginSchema env plugin).2 = 1 →
      (submitPluginSchema env plugin).1 = (false, e, none) := by
  unfold submitPluginSchema
  dsimp only
  split
  · intro h
    simp at h
  · rw [herr { Method := "POST", Path := "/schemas/plugins/validate", Body := plugin }]
    intro _
    rfl

/-- C3 counterexample: a request carrying both a raw config and a ConfigFrom
reference but an empty plugin name is rejected with reason "plugin name
cannot be empty" — not with the claimed both-configs reason. -/
theorem C3_counterexample :
    ValidatePlugin envParsedConf pluginBothNoName =
        ((false, "plugin name cannot be empty", none), 0) ∧
      "plugin name cannot be empty" ≠ "plugin cannot use both Config and ConfigFrom" :=
  ⟨rfl, by decide⟩

/-- C3 (amended): for every plugin validation request with a non-empty plugin
name whose raw config parses to a non-empty configuration and whose secret
reference is non-empty, ValidatePlugin returns invalid with reason "plugin
cannot use both Config and ConfigFrom" and issues no remote request. -/
theorem C3_both_configs_rejected (env : AdmissionEnv) (p : KongPlugin)
    (cfg : Configuration)
    (hname : p.PluginName ≠ "")
    (hraw : env.rawConfigToConfiguration p.Config = .ok cfg)
    (hcfg : cfg ≠ [])
    (hfrom : p.ConfigFrom ≠ ({ Secret := "", Key := "" } : SecretValueFromSource)) :
    ValidatePlugin env p =
      ((false, "plugin cannot use both Config and ConfigFrom", none), 0) := by
  simp [ValidatePlugin, hname, hraw, hfrom, List.length_pos.mpr hcfg]

/-- C3 witness: a named plugin with a parsed non-empty config and a secret
reference set is rejected for using both, without a remote round-trip. -/
theorem C3_witness :
    ValidatePlugin envParsedConf pluginBoth =
      ((false, "plugin cannot use both Config and ConfigFrom", none), 0) :=
  C3_both_configs_rejected envParsedConf pluginBoth [("minute", "20")]
    (by decide) rfl (by decide) (by decide)

/-- C4: for every plugin validation request whose schema-validation submission
to the remote service was performed and completed without a transport error,
ValidatePlugin returns (valid = true, reason = "", error = nil) — whatever
the response status code, 201 or not. -/
theorem C4_completed_response_is_valid (env : AdmissionEnv) (p : KongPlugin)
    (hok : ∀ r, ∃ resp, env.doRequest r = .ok resp)
    (hsub : (ValidatePlugin env p).2 = 1) :
    (ValidatePlugin env p).1 = (true, "", none) := by
  revert hsub
  unfold ValidatePlugin
  split
  · intro h
    simp at h
  · split
    · intro h
      simp at h
    · split
      · split
        · intro h
          simp at h
        · split
          · intro h
            simp at h
          · exact submitPluginSchema_completed env _ hok
      · exact submitPluginSchema_completed env _ hok

/-- C4 witness: a 201 response and a 404 response are both accepted as valid
with no reason and a nil error. -/
theorem C4_witness :
    (ValidatePlugin (baseEnv (.ok { StatusCode := 201 })) pluginSubmit).1 =
        (true, "", none) ∧
      (ValidatePlugin (baseEnv (.ok { StatusCode := 404 })) pluginSubmit).1 =
        (true, "", none) :=
  ⟨C4_completed_response_is_valid _ pluginSubmit
      (fun _ => ⟨{ StatusCode := 201 }, rfl⟩) rfl,
    C4_completed_response_is_valid _ pluginSubmit
      (fun _ => ⟨{ StatusCode := 404 }, rfl⟩) rfl⟩

/-- C5: for every plugin validation request whose schema-validation submission
was performed and failed with a transport-level error, ValidatePlugin returns
valid = false with the error text as the reason and a nil error value, rather
than propagating the failure as a non-nil error as the consumer path does. -/
theorem C5_transport_error_is_rejection (env : AdmissionEnv) (p : KongPlugin)
    (e : String) (herr : ∀ r, env.doRequest r = .error e)
    (hsub : (ValidatePlugin env p).2 = 1) :
    (ValidatePlugin env p).1 = (false, e, none) := by
  revert hsub
  unfold ValidatePlugin
  split
  · intro h
    simp at h
  · split
    · intro h
      simp at h
    · split
      · split
        · intro h
          simp at h
        · split
          · intro h
            simp at h
          · exact submitPluginSchema_transport_error env _ e herr
      · exact submitPluginSchema_transport_error env _ e herr

/-- C5 witness: a transport failure with text "connection refused" surfaces as
an invalid verdict carrying that text, with a nil error. -/
theorem C5_witness :
    (ValidatePlugin (baseEnv (.error "connection refused")) pluginSubmit).1 =
      (false, "connection refused", none) :=
  C5_transport_error_is_rejection _ pluginSubmit "connection refused"
    (fun _ => rfl) rfl

/-- Helper: appending anything to a non-empty string yields a non-empty
string. -/
theorem String.append_ne_empty_left (s t : String) (h : s ≠ "") : s ++ t ≠ "" := by
  intro hc
  apply h
  have hlen : (s ++ t).length = 0 := by rw [hc]; rfl
  rw [String.length_append] at hlen
  have h0 : s.length = 0 := by omega
  cases s with
  | mk data =>
    cases data with
    | nil => rfl
    | cons c cs => simp [String.length] at h0

/-- C6: For every consumer, ValidateConsumer returns (false, "username cannot
be empty", nil) without issuing a remote call when the username is empty;
otherwise it performs a remote lookup by username and returns (true, "", nil)
when the lookup reports not-found, (false, "consumer already exists", nil)
when the lookup returns a matching object, and a non-nil error — a wrapped
lookup failure, not a rejection — when the lookup fails for any other
reason. -/
theorem C6_validate_consumer (env : AdmissionEnv) (consumer : KongConsumer) :
    (consumer.Username = "" →
      ValidateConsumer env consumer =
        ((false, "username cannot be empty", none), 0)) ∧
    (consumer.Username ≠ "" →
      ∀ err, env.consumersGet consumer.Username = .error err →
        err.IsNotFound = true →
        ValidateConsumer env consumer = ((true, "", none), 1)) ∧
    (consumer.Username ≠ "" →
      ∀ c, env.consumersGet consumer.Username = .ok (some c) →
        ValidateConsumer env consumer =
          ((false, "consumer already exists", none), 1)) ∧
    (consumer.Username ≠ "" →
      ∀ err, env.consumersGet consumer.Username = .error err →
        err.IsNotFound = false →
        ValidateConsumer env consumer =
          ((false, "", some ("fetching consumer from Kong: " ++ err.Text)), 1)) := by
  refine ⟨?_, ?_, ?_, ?_⟩
  · intro h
    simp [ValidateConsumer, h]
  · intro h err herr hnf
    simp [ValidateConsumer, h, herr, hnf]
  · intro h c hc
    simp [ValidateConsumer, h, hc]
  · intro h err herr hnf
    simp [ValidateConsumer, h, herr, hnf]

/-- C6 witness: validating the consumer "alice" when the remote lookup reports
not-found yields (true, "", nil) after one remote call. -/
theorem C6_witness :
    ValidateConsumer envConsumerNotFound aliceConsumer = ((true, "", none), 1) :=
  (C6_validate_consumer envConsumerNotFound aliceConsumer).2.1 (by decide)
    { IsNotFound := true, Text := "Not found" } rfl rfl

/-- C7: for every secret whose credential-type marker maps to a known
required-field set, ValidateCredential returns (true, "", nil) when every
required field is present, and otherwise returns invalid with a reason
consisting of "missing required field(s): " followed by exactly the missing
field names, comma-joined, in the matrix's declared order; only presence of
the fields decides (the filter inspects key presence, never values). -/
theorem C7_required_fields (env : AdmissionEnv) (secret : Secret)
    (credType : String) (fields : List String)
    (hmark : secretLookup secret "kongCredType" = some credType)
    (hfields : credTypeToFields.lookup credType = some fields) :
    (fields.filter (fun f => (secretLookup secret f).isNone) = [] →
      ValidateCredential env secret = ((true, "", none), 0)) ∧
    (fields.filter (fun f => (secretLookup secret f).isNone) ≠ [] →
      ValidateCredential env secret =
        ((false,
          "missing required field(s): " ++ String.intercalate ", "
            (fields.filter (fun f => (secretLookup secret f).isNone)),
          none), 0)) := by
  constructor
  · intro hmiss
    simp [ValidateCredential, hmark, hfields, hmiss]
  · intro hmiss
    simp [ValidateCredential, hmark, hfields, List.length_eq_zero, hmiss]

/-- C7 witness: a basic-auth secret carrying only "username" is rejected with
reason "missing required field(s): password" and a nil error. -/
theorem C7_witness :
    ValidateCredential (baseEnv (.ok { StatusCode := 201 })) basicAuthUsernameOnly =
      ((false, "missing required field(s): password", none), 0) :=
  (C7_required_fields (baseEnv (.ok { StatusCode := 201 })) basicAuthUsernameOnly
    "basic-auth" basicAuthFields rfl rfl).2 (by decide)

/-- Helper: a credential-type string outside the matrix keys finds nothing in
the matrix. -/
theorem credTypeToFields_lookup_eq_none (t : String) (ht : t ∉ credTypeKeys) :
    credTypeToFields.lookup t = none := by
  simp [credTypeKeys, credTypeToFields] at ht
  obtain ⟨h1, h2, h3, h4, h5, h6, h7, h8, h9, h10, h11⟩ := ht
  simp [credTypeToFields, List.lookup, beq_eq_false_iff_ne.mpr h1,
    beq_eq_false_iff_ne.mpr h2, beq_eq_false_iff_ne.mpr h3,
    beq_eq_false_iff_ne.mpr h4, beq_eq_false_iff_ne.mpr h5,
    beq_eq_false_iff_ne.mpr h6, beq_eq_false_iff_ne.mpr h7,
    beq_eq_false_iff_ne.mpr h8, beq_eq_false_iff_ne.mpr h9,
    beq_eq_false_iff_ne.mpr h10, beq_eq_false_iff_ne.mpr h11]

/-- C8: the Field-Requirement Matrix maps exactly the eleven case-sensitive
identifiers to their declared ordered required-field lists — key-auth and
keyauth_credential to [key]; basic-auth and basicauth_credential to
[username, password]; hmac-auth and hmacauth_credential to [username,
secret]; jwt and jwt_secret to [algorithm, rsa_public_key, key, secret];
oauth2 to [name, client_id, client_secret, redirect_uris]; acl to [group];
mtls-auth to [subject_name] — every other credential-type string finds no
entry, and on such a secret ValidateCredential returns invalid with a reason
containing the literal type string. -/
theorem C8_matrix_exact :
    (credTypeToFields.lookup "key-auth" = some ["key"] ∧
      credTypeToFields.lookup "keyauth_credential" = some ["key"] ∧
      credTypeToFields.lookup "basic-auth" = some ["username", "password"] ∧
      credTypeToFields.lookup "basicauth_credential" = some ["username", "password"] ∧
      credTypeToFields.lookup "hmac-auth" = some ["username", "secret"] ∧
      credTypeToFields.lookup "hmacauth_credential" = some ["username", "secret"] ∧
      credTypeToFields.lookup "jwt" = some ["algorithm", "rsa_public_key", "key", "secret"] ∧
      credTypeToFields.lookup "jwt_secret" =
        some ["algorithm", "rsa_public_key", "key", "secret"] ∧
      credTypeToFields.lookup "oauth2" =
        some ["name", "client_id", "client_secret", "redirect_uris"] ∧
      credTypeToFields.lookup "acl" = some ["group"] ∧
      credTypeToFields.lookup "mtls-auth" = some ["subject_name"]) ∧
    credTypeKeys =
      ["key-auth", "keyauth_credential", "basic-auth", "basicauth_credential",
        "hmac-auth", "hmacauth_credential", "jwt", "jwt_secret", "oauth2", "acl",
        "mtls-auth"] ∧
    (∀ t, t ∉ credTypeKeys → credTypeToFields.lookup t = none) ∧
    (∀ env secret t, t ∉ credTypeKeys →
      secretLookup secret "kongCredType" = some t →
      ValidateCredential env secret =
        ((false, "invalid credential type: " ++ t, none), 0)) := by
  refine ⟨by decide, by decide, credTypeToFields_lookup_eq_none, ?_⟩
  intro env secret t ht hmark
  simp [ValidateCredential, hmark, credTypeToFields_lookup_eq_none t ht]

/-- C8 witness: the unknown identifier "made-up-type" finds no matrix entry
and its secret is rejected with a reason carrying the literal type string. -/
theorem C8_witness :
    credTypeToFields.lookup "made-up-type" = none ∧
      ValidateCredential (baseEnv (.ok { StatusCode := 201 })) unknownCredType =
        ((false, "invalid credential type: made-up-type", none), 0) :=
  ⟨C8_matrix_exact.2.2.1 "made-up-type" (by decide),
    C8_matrix_exact.2.2.2 (baseEnv (.ok { StatusCode := 201 })) unknownCredType
      "made-up-type" (by decide) rfl⟩

/-- C9 counterexample: a transport error whose text is the empty string makes
the plugin path return (valid = false, reason = "", error = nil), so with a
nil error the reason is empty while valid is false — the claimed equivalence
fails as stated. -/
theorem C9_counterexample :
    ¬ ((ValidatePlugin (baseEnv (.error "")) pluginSubmit).1.2.2 = none →
      ((ValidatePlugin (baseEnv (.error "")) pluginSubmit).1.2.1 = "" ↔
        (ValidatePlugin (baseEnv (.error "")) pluginSubmit).1.1 = true)) := by
  decide

/-- C9 (amended): for every input to every one of the three validation
operations, whenever the returned error value is nil, the returned reason
string is empty if and only if the returned valid boolean is true — provided,
for the plugin operation, that transport-level error texts are non-empty (in
the plugin transport-error path the reason is exactly the error text, so an
empty-texted transport error is the one nil-error outcome that is invalid
with an empty reason). -/
theorem C9_reason_empty_iff_valid (env : AdmissionEnv)
    (htext : ∀ r e, env.doRequest r = .error e → e ≠ "") :
    (∀ consumer, (ValidateConsumer env consumer).1.2.2 = none →
      ((ValidateConsumer env consumer).1.2.1 = "" ↔
        (ValidateConsumer env consumer).1.1 = true)) ∧
    (∀ secret, (ValidateCredential env secret).1.2.2 = none →
      ((ValidateCredential env secret).1.2.1 = "" ↔
        (ValidateCredential env secret).1.1 = true)) ∧
    (∀ p, (ValidatePlugin env p).1.2.2 = none →
      ((ValidatePlugin env p).1.2.1 = "" ↔ (ValidatePlugin env p).1.1 = true)) := by
  refine ⟨?_, ?_, ?_⟩
  · intro consumer
    unfold ValidateConsumer
    split
    · intro _
      decide
    · split
      · split
        · intro _
          decide
        · intro h
          simp at h
      · split
        · intro _
          decide
        · intro _
          decide
  · intro secret
    unfold ValidateCredential
    split
    · intro _
      decide
    · split
      · intro _
        simp [String.append_ne_empty_left "invalid credential type: " _ (by decide)]
      · dsimp only
        split
        · intro _
          simp [String.append_ne_empty_left "missing required field(s): " _ (by decide)]
        · intro _
          decide
  · intro p
    unfold ValidatePlugin submitPluginSchema
    split
    · intro _
      decide
    · split
      · intro h
        simp at h
      · split
        · split
          · intro _
            decide
          · split
            · intro h
              simp at h
            · dsimp only
              split
              · intro h
                simp at h
              · split
                · next e heq =>
                  intro _
                  simp [htext _ e heq]
                · intro _
                  split <;> decide
        · dsimp only
          split
          · intro h
            simp at h
          · split
            · next e heq =>
              intro _
              simp [htext _ e heq]
            · intro _
              split <;> decide

/-- C9 witness: with a remote that always completes, the consumer verdict for
"alice" satisfies the reason-empty-iff-valid equivalence. -/
theorem C9_witness :
    ((ValidateConsumer (baseEnv (.ok { StatusCode := 201 })) aliceConsumer).1.2.1 = "" ↔
      (ValidateConsumer (baseEnv (.ok { StatusCode := 201 })) aliceConsumer).1.1 = true) :=
  (C9_reason_empty_iff_valid (baseEnv (.ok { StatusCode := 201 }))
      (fun _ e h => by simp [baseEnv] at h)).1 aliceConsumer rfl

/-- C10: for every secret, ValidateCredential returns a nil error value and
performs no remote round-trip; its verdict is a pure function of the secret's
data mapping alone; and a secret without the "kongCredType" marker field
always yields (true, "", nil). -/
theorem C10_credential_pure_and_errorless :
    (∀ env secret,
      (ValidateCredential env secret).1.2.2 = none ∧
        (ValidateCredential env secret).2 = 0) ∧
    (∀ env1 env2 s1 s2, s1.Data = s2.Data →
      ValidateCredential env1 s1 = ValidateCredential env2 s2) ∧
    (∀ env secret, secretLookup secret "kongCredType" = none →
      ValidateCredential env secret = ((true, "", none), 0)) := by
  refine ⟨?_, ?_, ?_⟩
  · intro env secret
    unfold ValidateCredential
    split
    · exact ⟨rfl, rfl⟩
    · split
      · exact ⟨rfl, rfl⟩
      · dsimp only
        split
        · exact ⟨rfl, rfl⟩
        · exact ⟨rfl, rfl⟩
  · intro env1 env2 s1 s2 h
    have hl : secretLookup s1 = secretLookup s2 := by
      funext f
      simp [secretLookup, h]
    unfold ValidateCredential
    rw [hl]
  · intro env secret h
    simp [ValidateCredential, h]

/-- C10 witness: a secret without the credential-type marker passes through
with a nil error and no remote round-trip. -/
theorem C10_witness :
    ValidateCredential (baseEnv (.ok { StatusCode := 201 })) nonCredential =
      ((true, "", none), 0) :=
  C10_credential_pure_and_errorless.2.2 (baseEnv (.ok { StatusCode := 201 }))
    nonCredential rfl
